import Mathlib

/-!
Verification of the monad-fetch-price service (src/main.go, the cached
variant).  The embedding models:

* the address registry `tokenAddresses`,
* the quote cache `TokenPairCache` with `Get`/`Set` (nested maps modelled
  as functions to `Option`, Go `time.Time` instants as `Int` nanoseconds,
  Go `time.Duration` likewise),
* the pure tail of `fetchTokenPrice` (decimal-place selection, floor
  truncation, exchange-rate computation) over `ℚ`,
* the fallback output-selector resolution inside the scrape pipeline,
* the request handler `handleTokenPrice` with the browser fetch outcome
  passed in as an `Except String Result` parameter.
-/

/-- Address constant from main.go. -/
def MON_ADDRESS : String := "0x0000000000000000000000000000000000000000"

/-- Address constant from main.go. -/
def DAK_ADDRESS : String := "0x0F0BDEbF0F83cD1EE3974779Bcb7315f9808c714"

/-- Address constant from main.go. -/
def LBTC_ADDRESS : String := "0x73a58b73018c1a417534232529b57b99132b13D2"

/-- Address constant from main.go. -/
def USDC_ADDRESS : String := "0xf817257fed379853cDe0fa4F97AB987181B1E5Ea"

/-- Address constant from main.go; deliberately the same as USDC. -/
def USDT_ADDRESS : String := "0xf817257fed379853cDe0fa4F97AB987181B1E5Ea"

/-- Address constant from main.go. -/
def WETH_ADDRESS : String := "0xB5a30b0FDc5EA94A52fDc42e3E9760Cb8449Fb37"

/-- Address constant from main.go. -/
def WBTC_ADDRESS : String := "0xcf5a6076cfa32686c0Df13aBaDa2b40dec133F1d"

/-- Cache TTL from main.go: 2 * time.Hour, in nanoseconds (Go time.Duration). -/
def CACHE_TTL : Int := 2 * 3600 * 1000000000

/-- The registry map tokenAddresses from main.go, as a lookup function. -/
def tokenAddresses (symbol : String) : Option String :=
  if symbol = "mon" then some MON_ADDRESS
  else if symbol = "wmon" then some MON_ADDRESS
  else if symbol = "dak" then some DAK_ADDRESS
  else if symbol = "lbtc" then some LBTC_ADDRESS
  else if symbol = "usdc" then some USDC_ADDRESS
  else if symbol = "usdt" then some USDT_ADDRESS
  else if symbol = "eth" then some WETH_ADDRESS
  else if symbol = "wbtc" then some WBTC_ADDRESS
  else none

/-- One amount/token pair of the Result struct in main.go. -/
structure AmountToken where
  Amount : ℚ
  Token : String
deriving DecidableEq

/-- The Result struct from main.go.  Amounts are modelled over ℚ; the
RFC3339 timestamp string is modelled by the capture instant itself. -/
structure Result where
  Input : AmountToken
  Output : AmountToken
  ExchangeRate : ℚ
  Timestamp : Int
deriving DecidableEq

/-- The Go zero value Result\x7b\x7d returned on the miss paths of Get. -/
def emptyResult : Result :=
  { Input := ⟨0, ""⟩, Output := ⟨0, ""⟩, ExchangeRate := 0, Timestamp := 0 }

/-- The CacheEntry struct from main.go. -/
structure CacheEntry where
  result : Result
  ExpiresAt : Int
deriving DecidableEq

/-- The TokenPairCache struct from main.go: the nested Go maps
input token -> output token -> amount string -> CacheEntry, each level
modelled as a function into Option (absent key = none).  The mutex is not
modelled; Get and Set are given the current instant explicitly. -/
structure TokenPairCache where
  cache : String → Option (String → Option (String → Option CacheEntry))

/-- NewTokenPairCache from main.go: the empty nested map. -/
def NewTokenPairCache : TokenPairCache := ⟨fun _ => none⟩

/-- TokenPairCache.Get from main.go: descends the three levels, returning
the zero Result with found=false on any missing level, on a missing key,
or when the current instant is strictly after the entry expiry
(Go: time.Now().After(entry.ExpiresAt)). -/
def TokenPairCache.Get (c : TokenPairCache)
    (inputToken outputToken amount : String) (now : Int) : Result × Bool :=
  match c.cache inputToken with
  | none => (emptyResult, false)
  | some level1 =>
    match level1 outputToken with
    | none => (emptyResult, false)
    | some level2 =>
      match level2 amount with
      | none => (emptyResult, false)
      | some entry =>
        if entry.ExpiresAt < now then (emptyResult, false)
        else (entry.result, true)

/-- TokenPairCache.Set from main.go: creates the missing intermediate
levels (Go allocates the inner maps when absent), then overwrites the
entry for the triple with expiry now + CACHE_TTL. -/
def TokenPairCache.Set (c : TokenPairCache)
    (inputToken outputToken amount : String) (result : Result) (now : Int) :
    TokenPairCache :=
  let level1 : String → Option (String → Option CacheEntry) :=
    match c.cache inputToken with
    | some m => m
    | none => fun _ => none
  let level2 : String → Option CacheEntry :=
    match level1 outputToken with
    | some m => m
    | none => fun _ => none
  let level2' : String → Option CacheEntry :=
    fun a => if a = amount then some ⟨result, now + CACHE_TTL⟩ else level2 a
  let level1' : String → Option (String → Option CacheEntry) :=
    fun o => if o = outputToken then some level2' else level1 o
  ⟨fun i => if i = inputToken then some level1' else c.cache i⟩

/-- Physical lookup of the stored entry for a key triple, irrespective of
expiry: the raw nested-map access c.cache[i][o][a] of main.go. -/
def TokenPairCache.lookup (c : TokenPairCache) (i o a : String) :
    Option CacheEntry :=
  match c.cache i with
  | none => none
  | some level1 =>
    match level1 o with
    | none => none
    | some level2 => level2 a

/-- The decimal-place switch on outputToken in fetchTokenPrice. -/
def decimalPlacesFor (outputToken : String) : Nat :=
  if outputToken = "lbtc" then 8
  else if outputToken = "usdc" then 2
  else if outputToken = "usdt" then 2
  else if outputToken = "eth" then 5
  else if outputToken = "wbtc" then 8
  else 2

/-- The truncation step of fetchTokenPrice, over ℚ:
math.Floor(outputAmount * math.Pow10 d) / math.Pow10 d. -/
def truncateAmount (x : ℚ) (d : Nat) : ℚ :=
  (⌊x * (10 : ℚ) ^ d⌋ : ℚ) / (10 : ℚ) ^ d

/-- The pure tail of fetchTokenPrice after both scraped values parse:
truncate the output to the token-specific precision, divide, and build the
Result (main.go lines 367-405). -/
def mkResult (inputToken outputToken : String)
    (inputAmount outputAmountRaw : ℚ) (now : Int) : Result :=
  let decimalPlaces := decimalPlacesFor outputToken
  let outputAmount := truncateAmount outputAmountRaw decimalPlaces
  { Input := ⟨inputAmount, inputToken⟩,
    Output := ⟨outputAmount, outputToken⟩,
    ExchangeRate := outputAmount / inputAmount,
    Timestamp := now }

/-- The fallback probe inside fetchTokenPrice (the ActionFunc): when the
primary output read is the literal "0" or empty, the fallback selector is
evaluated; its value (none when the evaluation errored) replaces the
output only when non-empty. -/
def resolveOutputValue (primary : String) (fallback : Option String) :
    String :=
  if primary = "0" || primary = "" then
    match fallback with
    | some r => if r ≠ "" then r else primary
    | none => primary
  else primary

/-- The three response shapes handleTokenPrice can emit. -/
inductive HandlerResponse where
  | ok (r : Result)
  | badRequest (msg : String)
  | internalError (msg : String)
deriving DecidableEq

/-- HTTP status code the gin calls attach to each response shape. -/
def HandlerResponse.statusCode : HandlerResponse → Nat
  | .ok _ => 200
  | .badRequest _ => 400
  | .internalError _ => 500

/-- The target swap URL built by handleTokenPrice via fmt.Sprintf. -/
def targetURL (fromAddress toAddress : String) : String :=
  "https://kuru.io/swap?from=" ++ fromAddress ++ "&to=" ++ toAddress

/-- The target URL as a function of the two submitted symbols: defined
exactly when both resolve through the registry. -/
def handlerTargetURL (inputToken outputToken : String) : Option String :=
  match tokenAddresses inputToken, tokenAddresses outputToken with
  | some f, some t => some (targetURL f t)
  | _, _ => none

/-- handleTokenPrice from main.go, as a pure function of the three query
parameters (a missing gin query parameter reads as ""), the cache state,
the current instant, and the outcome the browser fetch would produce if
invoked.  Returns the response together with the resulting cache state. -/
def handleTokenPrice (inputToken outputToken amount : String)
    (c : TokenPairCache) (now : Int)
    (fetchOutcome : Except String Result) :
    HandlerResponse × TokenPairCache :=
  if inputToken = "" || outputToken = "" || amount = "" then
    (.badRequest "input, output, and amount parameters are required", c)
  else
    match tokenAddresses inputToken with
    | none => (.badRequest ("unsupported input token: " ++ inputToken), c)
    | some _ =>
      match tokenAddresses outputToken with
      | none => (.badRequest ("unsupported output token: " ++ outputToken), c)
      | some _ =>
        let cached := c.Get inputToken outputToken amount now
        if cached.2 then (.ok cached.1, c)
        else
          match fetchOutcome with
          | .error e => (.internalError e, c)
          | .ok result =>
            (.ok result, c.Set inputToken outputToken amount result now)

/-- A sample Result used by the concrete counterexample cache. -/
def sampleResult : Result :=
  { Input := ⟨1, "usdc"⟩, Output := ⟨1/2, "eth"⟩,
    ExchangeRate := 1/2, Timestamp := 0 }

/-- A cache holding one entry, stored at instant 0 under the triple
("usdc", "eth", "1"); its expiry instant is CACHE_TTL. -/
def boundaryCache : TokenPairCache :=
  NewTokenPairCache.Set "usdc" "eth" "1" sampleResult 0

/-- After Set, the physical entry for the written triple holds the written
result with expiry now + CACHE_TTL. -/
theorem lookup_set_same (c : TokenPairCache) (i o a : String) (r : Result)
    (now : Int) :
    (c.Set i o a r now).lookup i o a = some ⟨r, now + CACHE_TTL⟩ := by
  simp [TokenPairCache.Set, TokenPairCache.lookup]

/-- Set leaves the physical entry of every other triple unchanged. -/
theorem lookup_set_other (c : TokenPairCache) (i o a : String) (r : Result)
    (now : Int) (i' o' a' : String) (h : i' ≠ i ∨ o' ≠ o ∨ a' ≠ a) :
    (c.Set i o a r now).lookup i' o' a' = c.lookup i' o' a' := by
  by_cases hi : i' = i
  · subst hi
    by_cases ho : o' = o
    · subst ho
      have ha : a' ≠ a := by tauto
      cases hc : c.cache i' with
      | none => simp [TokenPairCache.Set, TokenPairCache.lookup, hc, ha]
      | some l1 =>
        cases hl : l1 o' with
        | none => simp [TokenPairCache.Set, TokenPairCache.lookup, hc, hl, ha]
        | some l2 => simp [TokenPairCache.Set, TokenPairCache.lookup, hc, hl, ha]
    · cases hc : c.cache i' with
      | none => simp [TokenPairCache.Set, TokenPairCache.lookup, hc, ho]
      | some l1 => simp [TokenPairCache.Set, TokenPairCache.lookup, hc, ho]
  · simp [TokenPairCache.Set, TokenPairCache.lookup, hi]

/-- Get is determined by the physical lookup together with the expiry
test: absent entry gives the zero Result and found=false; a present entry
gives found=false exactly when its expiry is strictly before now. -/
theorem get_eq_lookup (c : TokenPairCache) (i o a : String) (now : Int) :
    c.Get i o a now =
      match c.lookup i o a with
      | none => (emptyResult, false)
      | some e =>
        if e.ExpiresAt < now then (emptyResult, false)
        else (e.result, true) := by
  cases hc : c.cache i with
  | none => simp [TokenPairCache.Get, TokenPairCache.lookup, hc]
  | some l1 =>
    cases hl : l1 o with
    | none => simp [TokenPairCache.Get, TokenPairCache.lookup, hc, hl]
    | some l2 =>
      cases hl2 : l2 a with
      | none => simp [TokenPairCache.Get, TokenPairCache.lookup, hc, hl, hl2]
      | some e => simp [TokenPairCache.Get, TokenPairCache.lookup, hc, hl, hl2]

/-- Claim C1 (amended): Get returns the zero quote with found=false if no
entry exists for the exact key triple or if the stored expiry instant is
strictly before the current instant; otherwise it returns the stored
quote with found=true.  (The original claim said "at or before": see the
counterexample at the exact expiry instant.) -/
theorem claim_C1 (c : TokenPairCache) (i o a : String) (now : Int) :
    c.Get i o a now =
      match c.lookup i o a with
      | none => (emptyResult, false)
      | some e =>
        if e.ExpiresAt < now then (emptyResult, false)
        else (e.result, true) :=
  get_eq_lookup c i o a now

/-- Claim C1, counterexample to the claim as stated: boundaryCache holds
an entry for ("usdc","eth","1") whose expiry instant CACHE_TTL is at (so
at-or-before) the current instant CACHE_TTL, yet Get still returns the
stored quote with found=true, where the claim requires found=false. -/
theorem claim_C1_counterexample :
    boundaryCache.lookup "usdc" "eth" "1" = some ⟨sampleResult, CACHE_TTL⟩ ∧
    boundaryCache.Get "usdc" "eth" "1" CACHE_TTL = (sampleResult, true) := by
  constructor
  · rfl
  · rfl

/-- Claim C3: Set unconditionally overwrites the entry for the written
key triple, stamping expiry now + CACHE_TTL where CACHE_TTL is the fixed
2-hour constant (in nanoseconds), creating the intermediate levels as
needed (the first conjunct holds for every starting cache, the empty one
included), and leaves every other triple untouched. -/
theorem claim_C3 (c : TokenPairCache) (i o a : String) (r : Result)
    (now : Int) :
    (c.Set i o a r now).lookup i o a = some ⟨r, now + CACHE_TTL⟩ ∧
    CACHE_TTL = 2 * 3600 * 1000000000 ∧
    (∀ i' o' a', i' ≠ i ∨ o' ≠ o ∨ a' ≠ a →
      (c.Set i o a r now).lookup i' o' a' = c.lookup i' o' a') :=
  ⟨lookup_set_same c i o a r now, rfl,
   fun i' o' a' h => lookup_set_other c i o a r now i' o' a' h⟩

/-- Claim C3, witness: concrete instances of both parts of the claim on
the empty cache. -/
theorem claim_C3_witness :
    (NewTokenPairCache.Set "usdc" "eth" "1" sampleResult 0).lookup
      "usdc" "eth" "1" = some ⟨sampleResult, 0 + CACHE_TTL⟩ ∧
    (NewTokenPairCache.Set "usdc" "eth" "1" sampleResult 0).lookup
      "mon" "eth" "1" = NewTokenPairCache.lookup "mon" "eth" "1" :=
  ⟨(claim_C3 NewTokenPairCache "usdc" "eth" "1" sampleResult 0).1,
   (claim_C3 NewTokenPairCache "usdc" "eth" "1" sampleResult 0).2.2
     "mon" "eth" "1" (Or.inl (by decide))⟩

/-- Claim C4: Set followed immediately by Get with the same key triple
(at the same instant) returns the stored quote with found=true. -/
theorem claim_C4 (c : TokenPairCache) (i o a : String) (r : Result)
    (now : Int) :
    (c.Set i o a r now).Get i o a now = (r, true) := by
  rw [get_eq_lookup, lookup_set_same]
  have h : ¬ (now + CACHE_TTL < now) := by
    simp [CACHE_TTL]
  simp [h]

/-- Claim C5: the amount is part of the key and is not normalized: a Get
under one amount string never observes an entry stored under a different
amount string for the same symbol pair; in particular Get under "1"
does not match an entry Set under "1.0". -/
theorem claim_C5 (c : TokenPairCache) (i o a a' : String) (r : Result)
    (now now' : Int) (h : a ≠ a') :
    (c.Set i o a' r now).Get i o a now' = c.Get i o a now' := by
  rw [get_eq_lookup, get_eq_lookup,
    lookup_set_other c i o a' r now i o a (Or.inr (Or.inr h))]

/-- Claim C5, witness: Get under amount "1" is unaffected by a Set under
amount "1.0" on the same symbol pair. -/
theorem claim_C5_witness :
    (NewTokenPairCache.Set "usdc" "eth" "1.0" sampleResult 0).Get
      "usdc" "eth" "1" 0 = NewTokenPairCache.Get "usdc" "eth" "1" 0 :=
  claim_C5 NewTokenPairCache "usdc" "eth" "1" "1.0" sampleResult 0 0
    (by decide)

/-- Claim C2: the decimal-place switch gives 8 places for the two
BTC-pegged symbols lbtc and wbtc, 5 for eth, 2 for usdc and usdt, and 2
for any other symbol; truncation floors and never rounds up, so the raw
8-decimal value 0.123456789 truncates to 0.12345678 and the raw 2-decimal
value 99.999 truncates to 99.99, and in general the truncated value never
exceeds the raw value. -/
theorem claim_C2 :
    decimalPlacesFor "lbtc" = 8 ∧ decimalPlacesFor "wbtc" = 8 ∧
    decimalPlacesFor "eth" = 5 ∧ decimalPlacesFor "usdc" = 2 ∧
    decimalPlacesFor "usdt" = 2 ∧
    (∀ s : String, s ≠ "lbtc" → s ≠ "usdc" → s ≠ "usdt" → s ≠ "eth" →
      s ≠ "wbtc" → decimalPlacesFor s = 2) ∧
    truncateAmount (123456789 / 1000000000) 8 = 12345678 / 100000000 ∧
    truncateAmount (99999 / 1000) 2 = 9999 / 100 ∧
    (∀ (x : ℚ) (d : Nat), truncateAmount x d ≤ x) := by
  refine ⟨rfl, rfl, rfl, rfl, rfl, ?_, ?_, ?_, ?_⟩
  · intro s h1 h2 h3 h4 h5
    simp [decimalPlacesFor, h1, h2, h3, h4, h5]
  · norm_num [truncateAmount]
  · norm_num [truncateAmount]
  · intro x d
    have hf : (0 : ℚ) < (10 : ℚ) ^ d := by positivity
    rw [truncateAmount, div_le_iff₀ hf]
    exact Int.floor_le _

/-- Claim C2, witness: the default branch applies to the unknown symbol
"doge", and the floor bound holds at the concrete 8-decimal example. -/
theorem claim_C2_witness :
    decimalPlacesFor "doge" = 2 ∧
    truncateAmount (123456789 / 1000000000) 8 ≤ 123456789 / 1000000000 :=
  ⟨claim_C2.2.2.2.2.2.1 "doge" (by decide) (by decide) (by decide)
      (by decide) (by decide),
   claim_C2.2.2.2.2.2.2.2.2 (123456789 / 1000000000) 8⟩

/-- Claim C6: for a nonzero parsed input amount, the exchange rate of the
built Result is the truncated output amount divided by the parsed input
amount; equivalently it recovers the truncated output amount stored in
the Result when multiplied back by the input amount. -/
theorem claim_C6 (i o : String) (inA outRaw : ℚ) (now : Int)
    (h : inA ≠ 0) :
    (mkResult i o inA outRaw now).ExchangeRate =
      truncateAmount outRaw (decimalPlacesFor o) / inA ∧
    (mkResult i o inA outRaw now).ExchangeRate * inA =
      (mkResult i o inA outRaw now).Output.Amount := by
  constructor
  · rfl
  · show truncateAmount outRaw (decimalPlacesFor o) / inA * inA =
      truncateAmount outRaw (decimalPlacesFor o)
    exact div_mul_cancel₀ _ h

/-- Claim C6, witness: at input amount 1 and raw output 99.999 into usdc,
the exchange rate is 99.99 and multiplying back by the input amount
recovers the stored output amount. -/
theorem claim_C6_witness :
    (mkResult "mon" "usdc" 1 (99999 / 1000) 0).ExchangeRate =
      truncateAmount (99999 / 1000) (decimalPlacesFor "usdc") / 1 ∧
    (mkResult "mon" "usdc" 1 (99999 / 1000) 0).ExchangeRate * 1 =
      (mkResult "mon" "usdc" 1 (99999 / 1000) 0).Output.Amount :=
  claim_C6 "mon" "usdc" 1 (99999 / 1000) 0 (by norm_num)

/-- Claim C9: when the fallback selector evaluation succeeds, its value
replaces the primary output exactly when the primary read was the literal
"0" or empty and the fallback value is non-empty; in every other case
(including a failed fallback evaluation) the primary value is kept. -/
theorem claim_C9 (primary fb : String) :
    resolveOutputValue primary (some fb) =
      (if (primary = "0" ∨ primary = "") ∧ fb ≠ "" then fb else primary) ∧
    resolveOutputValue primary none = primary := by
  constructor
  · by_cases hp0 : primary = "0" <;> by_cases hpe : primary = "" <;>
      by_cases hf : fb = "" <;> simp [resolveOutputValue, hp0, hpe, hf]
  · unfold resolveOutputValue
    split <;> rfl

/-- Claim C7: the handler responds 400 exactly when one of the three
query parameters is missing (gin reads a missing parameter as "") or one
of the two symbols is outside the registry; and in the unknown-symbol
cases the error message is the fixed text followed by the offending
symbol itself, so it contains that symbol. -/
theorem claim_C7 (i o a : String) (c : TokenPairCache) (now : Int)
    (f : Except String Result) :
    ((handleTokenPrice i o a c now f).1.statusCode = 400 ↔
      (i = "" ∨ o = "" ∨ a = "" ∨ tokenAddresses i = none ∨
        tokenAddresses o = none)) ∧
    (i ≠ "" → o ≠ "" → a ≠ "" → tokenAddresses i = none →
      (handleTokenPrice i o a c now f).1 =
        .badRequest ("unsupported input token: " ++ i)) ∧
    (i ≠ "" → o ≠ "" → a ≠ "" → tokenAddresses i ≠ none →
      tokenAddresses o = none →
      (handleTokenPrice i o a c now f).1 =
        .badRequest ("unsupported output token: " ++ o)) := by
  by_cases hi : i = ""
  · simp [handleTokenPrice, hi, HandlerResponse.statusCode]
  · by_cases ho : o = ""
    · simp [handleTokenPrice, hi, ho, HandlerResponse.statusCode]
    · by_cases ha : a = ""
      · simp [handleTokenPrice, hi, ho, ha, HandlerResponse.statusCode]
      · cases hti : tokenAddresses i with
        | none =>
          simp [handleTokenPrice, hi, ho, ha, hti, HandlerResponse.statusCode]
        | some fa =>
          cases hto : tokenAddresses o with
          | none =>
            simp [handleTokenPrice, hi, ho, ha, hti, hto,
              HandlerResponse.statusCode]
          | some ta =>
            by_cases hcache : (c.Get i o a now).2
            · simp [handleTokenPrice, hi, ho, ha, hti, hto, hcache,
                HandlerResponse.statusCode]
            · cases f with
              | error e =>
                simp [handleTokenPrice, hi, ho, ha, hti, hto, hcache,
                  HandlerResponse.statusCode]
              | ok r =>
                simp [handleTokenPrice, hi, ho, ha, hti, hto, hcache,
                  HandlerResponse.statusCode]

/-- Claim C7, witness: input=doge, output=usdc, amount=1 yields a 400
whose message is the fixed text followed by "doge". -/
theorem claim_C7_witness :
    (handleTokenPrice "doge" "usdc" "1" NewTokenPairCache 0
        (.error "ignored")).1 =
      .badRequest ("unsupported input token: " ++ "doge") :=
  (claim_C7 "doge" "usdc" "1" NewTokenPairCache 0 (.error "ignored")).2.1
    (by decide) (by decide) (by decide) (by decide)

/-- Claim C8: when the fetch outcome is a failure the handler never
touches the cache (entries are created only on fetch success), and on the
path where the fetcher is actually consulted (valid parameters, both
symbols in the registry, cache miss) it responds 500 carrying the
underlying failure message verbatim. -/
theorem claim_C8 (i o a : String) (c : TokenPairCache) (now : Int)
    (e : String) :
    (handleTokenPrice i o a c now (.error e)).2 = c ∧
    (i ≠ "" → o ≠ "" → a ≠ "" → tokenAddresses i ≠ none →
      tokenAddresses o ≠ none → (c.Get i o a now).2 = false →
      (handleTokenPrice i o a c now (.error e)).1 = .internalError e) := by
  by_cases hi : i = ""
  · simp [handleTokenPrice, hi]
  · by_cases ho : o = ""
    · simp [handleTokenPrice, hi, ho]
    · by_cases ha : a = ""
      · simp [handleTokenPrice, hi, ho, ha]
      · cases hti : tokenAddresses i with
        | none => simp [handleTokenPrice, hi, ho, ha, hti]
        | some fa =>
          cases hto : tokenAddresses o with
          | none => simp [handleTokenPrice, hi, ho, ha, hti, hto]
          | some ta =>
            by_cases hcache : (c.Get i o a now).2
            · simp [handleTokenPrice, hi, ho, ha, hti, hto, hcache]
            · simp [handleTokenPrice, hi, ho, ha, hti, hto, hcache]

/-- Claim C8, witness: a failing fetch on a valid miss returns 500 with
the verbatim message and leaves the empty cache empty. -/
theorem claim_C8_witness :
    (handleTokenPrice "mon" "usdc" "1" NewTokenPairCache 0
        (.error "chrome failed to start")).2 = NewTokenPairCache ∧
    (handleTokenPrice "mon" "usdc" "1" NewTokenPairCache 0
        (.error "chrome failed to start")).1 =
      .internalError "chrome failed to start" :=
  ⟨(claim_C8 "mon" "usdc" "1" NewTokenPairCache 0
      "chrome failed to start").1,
   (claim_C8 "mon" "usdc" "1" NewTokenPairCache 0
      "chrome failed to start").2
     (by decide) (by decide) (by decide) (by simp [tokenAddresses])
     (by simp [tokenAddresses]) rfl⟩

/-- Claim C10: usdt and usdc resolve to the same address, as do wmon and
mon, so equal-address symbols produce the same scrape target URL on
either side; yet the symbols themselves are distinct strings, a Set never
affects a Get under a different input symbol or under a different output
symbol (so aliased symbols share no cache entry whichever position they
are submitted in), and the token labels of a built Result are the
submitted symbols themselves. -/
theorem claim_C10 :
    tokenAddresses "usdt" = tokenAddresses "usdc" ∧
    tokenAddresses "wmon" = tokenAddresses "mon" ∧
    "usdt" ≠ "usdc" ∧ "wmon" ≠ "mon" ∧
    (∀ i i' o : String, tokenAddresses i = tokenAddresses i' →
      handlerTargetURL i o = handlerTargetURL i' o) ∧
    (∀ i o o' : String, tokenAddresses o = tokenAddresses o' →
      handlerTargetURL i o = handlerTargetURL i o') ∧
    (∀ (c : TokenPairCache) (i i' o a : String) (r : Result)
        (now now' : Int), i ≠ i' →
      (c.Set i o a r now).Get i' o a now' = c.Get i' o a now') ∧
    (∀ (c : TokenPairCache) (i o o' a : String) (r : Result)
        (now now' : Int), o ≠ o' →
      (c.Set i o a r now).Get i o' a now' = c.Get i o' a now') ∧
    (∀ (inputToken outputToken : String) (inA outRaw : ℚ) (now : Int),
      (mkResult inputToken outputToken inA outRaw now).Input.Token =
        inputToken ∧
      (mkResult inputToken outputToken inA outRaw now).Output.Token =
        outputToken) := by
  refine ⟨rfl, rfl, by decide, by decide, ?_, ?_, ?_, ?_, ?_⟩
  · intro i i' o h
    unfold handlerTargetURL
    rw [h]
  · intro i o o' h
    unfold handlerTargetURL
    rw [h]
  · intro c i i' o a r now now' h
    rw [get_eq_lookup, get_eq_lookup,
      lookup_set_other c i o a r now i' o a (Or.inl (Ne.symm h))]
  · intro c i o o' a r now now' h
    rw [get_eq_lookup, get_eq_lookup,
      lookup_set_other c i o a r now i o' a (Or.inr (Or.inl (Ne.symm h)))]
  · intro inputToken outputToken inA outRaw now
    exact ⟨rfl, rfl⟩

/-- Claim C10, witness: the usdt/usdc alias pair shares the target URL
for output eth, a Set under input usdt leaves a Get under input usdc
unchanged, a Set under output usdt leaves a Get under output usdc
unchanged, and the labels of a concrete Result are the submitted
symbols. -/
theorem claim_C10_witness :
    handlerTargetURL "usdt" "eth" = handlerTargetURL "usdc" "eth" ∧
    (NewTokenPairCache.Set "usdt" "eth" "1" sampleResult 0).Get
      "usdc" "eth" "1" 0 = NewTokenPairCache.Get "usdc" "eth" "1" 0 ∧
    (NewTokenPairCache.Set "mon" "usdt" "1" sampleResult 0).Get
      "mon" "usdc" "1" 0 = NewTokenPairCache.Get "mon" "usdc" "1" 0 ∧
    (mkResult "usdt" "eth" 1 1 0).Input.Token = "usdt" :=
  ⟨claim_C10.2.2.2.2.1 "usdt" "usdc" "eth" rfl,
   claim_C10.2.2.2.2.2.2.1 NewTokenPairCache "usdt" "usdc" "eth" "1"
     sampleResult 0 0 (by decide),
   claim_C10.2.2.2.2.2.2.2.1 NewTokenPairCache "mon" "usdt" "usdc" "1"
     sampleResult 0 0 (by decide),
   (claim_C10.2.2.2.2.2.2.2.2 "usdt" "eth" 1 1 0).1⟩
